import Mathlib

/-!
Verification of the simple_volume_knob firmware (src/main.rs, src/bluetooth.rs).

The quadrature decoder loop of `knob_controller` (main.rs) is embedded as a
pure step function over the two channel history registers; the BLE code of
bluetooth.rs is embedded with the host-engine calls (security-level query,
reply construction, notification delivery, pass-key confirmation, advertise
outcome) made explicit as environment values, and the async loops run on fuel
over a list of environment steps.

Machine integers are modelled as Nat with explicit reductions: the u8 history
registers wrap modulo 256, and the bit mask is the source's `&&& 0b111`.
-/

namespace SVK

/- ===== Quadrature decoder (src/main.rs) ===== -/

def MASK : Nat := 0b111

def LEFT_P1 : Nat := 0b100

def LEFT_P2 : Nat := 0b110

def LEFT_P1_INV : Nat := 0b011

def LEFT_P2_INV : Nat := 0b001

def RIGHT_P1 : Nat := 0b110

def RIGHT_P2 : Nat := 0b100

def RIGHT_P1_INV : Nat := 0b001

def RIGHT_P2_INV : Nat := 0b011

/-- Rotation event classified by one iteration of the `knob_controller` loop:
"Rot left" logged, "Rot right" logged, or neither. -/
inductive RotationEvent
  | Left
  | Right
  | None
deriving DecidableEq, Repr

/-- The two u8 history registers `in1_history`, `in2_history` of
`knob_controller`, as Nat reduced modulo 256. -/
structure DecoderState where
  in1_history : Nat
  in2_history : Nat
deriving DecidableEq, Repr

/-- `history <<= 1; history |= level as u8` on a u8 register. -/
def shift8 (h : Nat) (level : Bool) : Nat :=
  ((h <<< 1) ||| (if level then 1 else 0)) % 256

/-- The left-pattern test of `knob_controller`:
`in1_pattern == LEFT_P1 && in2_pattern == LEFT_P2 || in1_pattern == LEFT_P1_INV && in2_pattern == LEFT_P2_INV`. -/
def isLeftPattern (p1 p2 : Nat) : Bool :=
  p1 == LEFT_P1 && p2 == LEFT_P2 || p1 == LEFT_P1_INV && p2 == LEFT_P2_INV

/-- The right-pattern test of `knob_controller`. -/
def isRightPattern (p1 p2 : Nat) : Bool :=
  p1 == RIGHT_P1 && p2 == RIGHT_P2 || p1 == RIGHT_P1_INV && p2 == RIGHT_P2_INV

/-- The if / else-if classification at the bottom of the `knob_controller`
loop body. -/
def classify (p1 p2 : Nat) : RotationEvent :=
  if isLeftPattern p1 p2 then RotationEvent.Left
  else if isRightPattern p1 p2 then RotationEvent.Right
  else RotationEvent.None

/-- One iteration of the `knob_controller` loop: after an edge on either
channel, both current levels are shifted into their history registers, both
histories are masked to the low 3 bits, and the masked pair is classified. -/
def decoderStep (s : DecoderState) (l1 l2 : Bool) : DecoderState × RotationEvent :=
  let h1 := shift8 s.in1_history l1
  let h2 := shift8 s.in2_history l2
  (⟨h1, h2⟩, classify (h1 &&& MASK) (h2 &&& MASK))

/-- Run the decoder over a list of edge events; each entry gives the levels
of the two channels read after that edge. Returns the per-step events. -/
def decoderRun (s : DecoderState) : List (Bool × Bool) → List RotationEvent
  | [] => []
  | l :: rest =>
    (decoderStep s l.1 l.2).2 :: decoderRun (decoderStep s l.1 l.2).1 rest

/-- The sequence of masked history pairs seen by the classification, one per
step. -/
def maskedTrace (s : DecoderState) : List (Bool × Bool) → List (Nat × Nat)
  | [] => []
  | l :: rest =>
    ((decoderStep s l.1 l.2).1.in1_history &&& MASK,
      (decoderStep s l.1 l.2).1.in2_history &&& MASK) ::
      maskedTrace (decoderStep s l.1 l.2).1 rest

theorem mask7 (n : Nat) : n &&& MASK = n % 8 := by
  have h := Nat.and_pow_two_sub_one_eq_mod n 3
  norm_num at h
  simpa [MASK] using h

theorem shift8_mod8 (h g : Nat) (b : Bool) (hm : h % 8 = g % 8) :
    shift8 h b % 8 = shift8 g b % 8 := by
  have e1 : h <<< 1 = 2 * h := by rw [Nat.shiftLeft_eq]; ring
  have e2 : g <<< 1 = 2 * g := by rw [Nat.shiftLeft_eq]; ring
  have lor1 : ∀ n : Nat, (2 * n) ||| 1 = 2 * n + 1 := by
    intro n
    have b3 := Nat.lor_bit false n true 0
    simpa [Nat.bit_val] using b3
  unfold shift8
  cases b
  · simp only [e1, e2, Bool.false_eq_true, if_false, Nat.or_zero]
    omega
  · simp only [e1, e2, if_true, lor1]
    omega

theorem decoderStep_congr (s t : DecoderState) (l1 l2 : Bool)
    (h1 : s.in1_history % 8 = t.in1_history % 8)
    (h2 : s.in2_history % 8 = t.in2_history % 8) :
    (decoderStep s l1 l2).2 = (decoderStep t l1 l2).2 ∧
    (decoderStep s l1 l2).1.in1_history % 8 = (decoderStep t l1 l2).1.in1_history % 8 ∧
    (decoderStep s l1 l2).1.in2_history % 8 = (decoderStep t l1 l2).1.in2_history % 8 := by
  have m1 := shift8_mod8 s.in1_history t.in1_history l1 h1
  have m2 := shift8_mod8 s.in2_history t.in2_history l2 h2
  refine ⟨?_, m1, m2⟩
  simp only [decoderStep, mask7, m1, m2]

theorem decoderRun_congr (ls : List (Bool × Bool)) : ∀ (s t : DecoderState),
    s.in1_history % 8 = t.in1_history % 8 →
    s.in2_history % 8 = t.in2_history % 8 →
    decoderRun s ls = decoderRun t ls := by
  induction ls with
  | nil => intro s t _ _; rfl
  | cons l rest ih =>
    intro s t h1 h2
    obtain ⟨he, r1, r2⟩ := decoderStep_congr s t l.1 l.2 h1 h2
    simp only [decoderRun, he, ih _ _ r1 r2]

theorem decoderRun_mod (s : DecoderState) (ls : List (Bool × Bool)) :
    decoderRun s ls = decoderRun ⟨s.in1_history % 8, s.in2_history % 8⟩ ls :=
  decoderRun_congr ls s ⟨s.in1_history % 8, s.in2_history % 8⟩
    (by show s.in1_history % 8 = s.in1_history % 8 % 8; omega)
    (by show s.in2_history % 8 = s.in2_history % 8 % 8; omega)

/-- C2: from any decoder state whose two idle levels (history low bits) are
high, the canonical rotate-left two-edge sequence (channel 1 falls, then
channel 2 falls) produces no event on its strict prefix and exactly one Left
— never a Right — at completion, and the rotate-right sequence (channel 2
falls, then channel 1 falls) produces exactly one Right and never a Left;
symmetrically, from idle-low states the inverted-polarity sequences
(channel 1 rises then channel 2 rises, resp. channel 2 rises then channel 1
rises) produce exactly one Left, resp. Right, at completion and nothing
before. -/
theorem decoder_canonical_patterns (h1 h2 : Nat) :
    (h1 % 2 = 1 → h2 % 2 = 1 →
      decoderRun ⟨h1, h2⟩ [(false, true), (false, false)] =
        [RotationEvent.None, RotationEvent.Left] ∧
      decoderRun ⟨h1, h2⟩ [(true, false), (false, false)] =
        [RotationEvent.None, RotationEvent.Right]) ∧
    (h1 % 2 = 0 → h2 % 2 = 0 →
      decoderRun ⟨h1, h2⟩ [(true, false), (true, true)] =
        [RotationEvent.None, RotationEvent.Left] ∧
      decoderRun ⟨h1, h2⟩ [(false, true), (true, true)] =
        [RotationEvent.None, RotationEvent.Right]) := by
  constructor
  · intro o1 o2
    have a8 : h1 % 8 = 1 ∨ h1 % 8 = 3 ∨ h1 % 8 = 5 ∨ h1 % 8 = 7 := by omega
    have b8 : h2 % 8 = 1 ∨ h2 % 8 = 3 ∨ h2 % 8 = 5 ∨ h2 % 8 = 7 := by omega
    constructor <;>
      (rw [decoderRun_mod]
       rcases a8 with a8 | a8 | a8 | a8 <;> rcases b8 with b8 | b8 | b8 | b8 <;>
         rw [a8, b8] <;> decide)
  · intro e1 e2
    have a8 : h1 % 8 = 0 ∨ h1 % 8 = 2 ∨ h1 % 8 = 4 ∨ h1 % 8 = 6 := by omega
    have b8 : h2 % 8 = 0 ∨ h2 % 8 = 2 ∨ h2 % 8 = 4 ∨ h2 % 8 = 6 := by omega
    constructor <;>
      (rw [decoderRun_mod]
       rcases a8 with a8 | a8 | a8 | a8 <;> rcases b8 with b8 | b8 | b8 | b8 <;>
         rw [a8, b8] <;> decide)

/-- C2 witness: the theorem instantiated at concrete idle-high state (1,1)
and idle-low state (0,0). -/
theorem decoder_canonical_patterns_witness :
    (decoderRun ⟨1, 1⟩ [(false, true), (false, false)] =
        [RotationEvent.None, RotationEvent.Left] ∧
      decoderRun ⟨1, 1⟩ [(true, false), (false, false)] =
        [RotationEvent.None, RotationEvent.Right]) ∧
    (decoderRun ⟨0, 0⟩ [(true, false), (true, true)] =
        [RotationEvent.None, RotationEvent.Left] ∧
      decoderRun ⟨0, 0⟩ [(false, true), (true, true)] =
        [RotationEvent.None, RotationEvent.Right]) :=
  ⟨(decoder_canonical_patterns 1 1).1 (by decide) (by decide),
   (decoder_canonical_patterns 0 0).2 (by decide) (by decide)⟩

/-- C6: decoding is total — every edge produces exactly one classification —
and on any edge sequence whose masked history pairs never match a full left
or right pattern (for example a bounce, where a level toggles back before
completing a pattern), every step classifies as None. -/
theorem decoder_total_and_bounce_silent (s : DecoderState) (ls : List (Bool × Bool)) :
    (decoderRun s ls).length = ls.length ∧
    ((∀ p ∈ maskedTrace s ls, isLeftPattern p.1 p.2 = false ∧ isRightPattern p.1 p.2 = false) →
      decoderRun s ls = List.replicate ls.length RotationEvent.None) := by
  induction ls generalizing s with
  | nil => exact ⟨rfl, fun _ => rfl⟩
  | cons l rest ih =>
    obtain ⟨ihlen, ihnone⟩ := ih (decoderStep s l.1 l.2).1
    have hcons : maskedTrace s (l :: rest) =
        ((decoderStep s l.1 l.2).1.in1_history &&& MASK,
          (decoderStep s l.1 l.2).1.in2_history &&& MASK) ::
          maskedTrace (decoderStep s l.1 l.2).1 rest := rfl
    constructor
    · simp only [decoderRun, List.length_cons, ihlen]
    · intro hall
      rw [hcons] at hall
      have hhead := hall ((decoderStep s l.1 l.2).1.in1_history &&& MASK,
        (decoderStep s l.1 l.2).1.in2_history &&& MASK) (List.mem_cons_self _ _)
      have htail : ∀ p ∈ maskedTrace (decoderStep s l.1 l.2).1 rest,
          isLeftPattern p.1 p.2 = false ∧ isRightPattern p.1 p.2 = false :=
        fun p hp => hall p (List.mem_cons_of_mem _ hp)
      have hev : (decoderStep s l.1 l.2).2 = RotationEvent.None := by
        show classify ((decoderStep s l.1 l.2).1.in1_history &&& MASK)
          ((decoderStep s l.1 l.2).1.in2_history &&& MASK) = RotationEvent.None
        unfold classify
        rw [hhead.1, hhead.2]
        rfl
      simp only [decoderRun, hev, ihnone htail, List.length_cons, List.replicate_succ]

/-- C6 witness: a concrete bounce — channel 1 falls then rises again from the
idle-high state — matches no pattern at either step and yields None twice. -/
theorem decoder_total_and_bounce_silent_witness :
    (decoderRun ⟨1, 1⟩ [(false, true), (true, true)]).length = 2 ∧
    decoderRun ⟨1, 1⟩ [(false, true), (true, true)] =
      List.replicate 2 RotationEvent.None :=
  ⟨(decoder_total_and_bounce_silent ⟨1, 1⟩ [(false, true), (true, true)]).1,
   (decoder_total_and_bounce_silent ⟨1, 1⟩ [(false, true), (true, true)]).2 (by decide)⟩

/- ===== BLE peripheral (src/bluetooth.rs) ===== -/

/-- Errors of the BLE host library (trouble_host::Error is opaque to this
crate; only its identity matters here). -/
inductive BleError
  | disconnected
  | other
deriving DecidableEq, Repr

instance {e a : Type} [DecidableEq e] [DecidableEq a] : DecidableEq (Except e a) := fun x y =>
  match x, y with
  | .error u, .error v =>
    if h : u = v then .isTrue (by rw [h]) else .isFalse (by intro hc; cases hc; exact h rfl)
  | .ok u, .ok v =>
    if h : u = v then .isTrue (by rw [h]) else .isFalse (by intro hc; cases hc; exact h rfl)
  | .error _, .ok _ => .isFalse (by intro hc; cases hc)
  | .ok _, .error _ => .isFalse (by intro hc; cases hc)

/-- The key states of the HID consumer-control report (bluetooth.rs
`KeyPressed`). -/
inductive KeyPressed
  | VolUp
  | VolDown
  | Mute
  | None
deriving DecidableEq, Repr

/-- Modelled from the spec: the `hid` module (`crate::hid`) is not under src;
per the data model the input report is `[report_id, bitmask]` and the
report-reference descriptor carries the same id. The concrete id value is
not given by the spec; the claims below do not depend on it. -/
def HID_REPORT_INPUT_ID : Nat := 1

/-- `KeyPressed::as_report`: the fixed 2-byte input report `[id, bitmask]`. -/
def KeyPressed.as_report : KeyPressed → List Nat
  | .VolUp => [HID_REPORT_INPUT_ID, 1]
  | .VolDown => [HID_REPORT_INPUT_ID, 2]
  | .Mute => [HID_REPORT_INPUT_ID, 4]
  | .None => [HID_REPORT_INPUT_ID, 0]

/-- Observable actions of the notifier: a notification pushed on the HID
input-report characteristic, or a timer delay in milliseconds. -/
inductive NotifyAction
  | notify (report : List Nat)
  | delayMs (ms : Nat)
deriving DecidableEq, Repr

/-- `KeyPressed::send`: notify the key's report; on error return it (the `?`
early return skips the rest); otherwise delay 50 ms, notify `None`'s report
and return that notify's result. The arguments `r1 r2` are the host-engine
results of the two notify calls (`none` = delivered). Returns the actions
performed and the function's result. -/
def KeyPressed.send (k : KeyPressed) (r1 r2 : Option BleError) :
    List NotifyAction × Option BleError :=
  match r1 with
  | some e => ([NotifyAction.notify k.as_report], some e)
  | none =>
    ([NotifyAction.notify k.as_report, NotifyAction.delayMs 50,
      NotifyAction.notify KeyPressed.None.as_report], r2)

/-- `custom_task`: alternate VolUp / VolDown sends every 2 s until a send
fails, then break. The environment gives each iteration's two notify
results; fuel bounds the iterations examined. Returns the actions performed
and whether the task stopped via its break (true) or is still running
(false). -/
def custom_task : Nat → Bool → List (Option BleError × Option BleError) →
    List NotifyAction × Bool
  | 0, _, _ => ([], false)
  | _ + 1, _, [] => ([], false)
  | fuel + 1, toggle, r :: rest =>
    match (if toggle then KeyPressed.VolUp else KeyPressed.VolDown).send r.1 r.2 with
    | (acts, some _) => (acts, true)
    | (acts, none) =>
      ((acts ++ [NotifyAction.delayMs 2000]) ++ (custom_task fuel (!toggle) rest).1,
        (custom_task fuel (!toggle) rest).2)

/-- ATT protocol error codes used by the dispatcher. -/
inductive AttErrorCode
  | INSUFFICIENT_AUTHENTICATION
  | otherCode
deriving DecidableEq, Repr

/-- The security level of the connection as reported by
`conn.raw().security_level()`; only its `authenticated()` accessor is used. -/
structure SecurityLevel where
  authenticated : Bool
deriving DecidableEq, Repr

/-- GATT read/write events surfaced for this connection (`GattEvent`). -/
inductive GattEvent
  | Read (handle : Nat)
  | Write (handle : Nat) (data : List Nat)
  | OtherGatt
deriving DecidableEq, Repr

/-- The reply sent for one GATT event: `event.accept()` or
`event.reject(code)` followed by `reply.send()`. -/
inductive Reply
  | accept
  | reject (code : AttErrorCode)
deriving DecidableEq, Repr

/-- Host-engine behaviour during one `handle_gatt_event` call:
the result of `conn.raw().security_level()` and whether
`event.accept()` / `event.reject(..)` constructs the reply successfully. -/
structure GattEnv where
  security_level : Except BleError SecurityLevel
  replyOk : Bool
deriving DecidableEq, Repr

/-- `handle_gatt_event`: for Read/Write, query the security level (the `?`
propagates its error, returning before any reply); unauthenticated yields
the INSUFFICIENT_AUTHENTICATION rejection code, authenticated none. Then
reply once: reject with the code if one was chosen, else accept; if the
reply constructor fails the error is only logged and no reply is sent.
Returns the replies actually sent. -/
def handle_gatt_event (env : GattEnv) (event : GattEvent) :
    Except BleError (List Reply) :=
  let result : Except BleError (Option AttErrorCode) :=
    match event with
    | .Read _ =>
      match env.security_level with
      | .error e => .error e
      | .ok sl =>
        .ok (if sl.authenticated then none else some AttErrorCode.INSUFFICIENT_AUTHENTICATION)
    | .Write _ _ =>
      match env.security_level with
      | .error e => .error e
      | .ok sl =>
        .ok (if sl.authenticated then none else some AttErrorCode.INSUFFICIENT_AUTHENTICATION)
    | .OtherGatt => .ok none
  match result with
  | .error e => .error e
  | .ok r =>
    .ok (if env.replyOk then
          [match r with
           | some code => Reply.reject code
           | none => Reply.accept]
        else [])

/-- The replies sent during a `handle_gatt_event` call (none on its early
error return). -/
def repliesOf : Except BleError (List Reply) → List Reply
  | .error _ => []
  | .ok l => l

/-- Opaque long-term-key bond material (`BondInformation`). -/
structure BondInformation where
  ltk : Nat
deriving DecidableEq, Repr

/-- Connection events surfaced by `conn.next()` (`GattConnectionEvent`).
Fallible host calls made while handling an event carry their outcome in the
event: `PassKeyConfirm` carries the result of `conn.pass_key_confirm()`, and
`Gatt` carries the `GattEnv` of its `handle_gatt_event` call. -/
inductive ConnEvent
  | Disconnected (reason : Nat)
  | PassKeyDisplay (key : Nat)
  | PassKeyConfirm (confirmResult : Option BleError)
  | PassKeyInput
  | PairingComplete (security_level : Nat) (bond : Option BondInformation)
  | PairingFailed (err : Nat)
  | Gatt (env : GattEnv) (event : GattEvent)
  | OtherEvent
deriving DecidableEq, Repr

/-- One transition of the `gatt_events_task` loop: the updated bond slot and
`none` to stay in the loop, or `some outcome` to terminate — `.ok reason`
for the `break reason` on Disconnected, `.error e` for a `?` propagation
from `pass_key_confirm` or from `handle_gatt_event`. -/
def gatt_events_step (bond : Option BondInformation) :
    ConnEvent → Option BondInformation × Option (Except BleError Nat)
  | .Disconnected reason => (bond, some (Except.ok reason))
  | .PassKeyDisplay _ => (bond, none)
  | .PassKeyConfirm res =>
    match res with
    | some e => (bond, some (Except.error e))
    | none => (bond, none)
  | .PassKeyInput => (bond, none)
  | .PairingComplete _ b => (b, none)
  | .PairingFailed _ => (bond, none)
  | .Gatt env event =>
    match handle_gatt_event env event with
    | .error e => (bond, some (Except.error e))
    | .ok _ => (bond, none)
  | .OtherEvent => (bond, none)

/-- `gatt_events_task`: poll events in order until a step terminates the
loop; an exhausted list means the pump is still active, awaiting the next
event. Returns the final bond slot and the termination outcome, if any. -/
def gatt_events_task (bond : Option BondInformation) :
    List ConnEvent → Option BondInformation × Option (Except BleError Nat)
  | [] => (bond, none)
  | e :: rest =>
    match gatt_events_step bond e with
    | (b, some out) => (b, some out)
    | (b, none) => gatt_events_task b rest

/-- An event is host-call clean when the fallible host calls made while
handling it succeed. -/
def hostCallOk : ConnEvent → Bool
  | .PassKeyConfirm res => res.isNone
  | .Gatt env _ =>
    match env.security_level with
    | .ok _ => true
    | .error _ => false
  | _ => true

/-- The reason of the first Disconnected event in the list, if any. -/
def firstDisconnect : List ConnEvent → Option Nat
  | [] => none
  | ConnEvent.Disconnected r :: _ => some r
  | _ :: rest => firstDisconnect rest

/- ===== run_bluetooth: advertising loop, session race, ble_task ===== -/

/-- Observable actions of the advertising loop, in program order:
the `advertise(..)` call at the loop top, the
`conn.raw().set_bondable(bond_info.is_none())` call, and the start of the
`select(gatt_events_task, custom_task)` session race. -/
inductive LoopAction
  | advertiseStart
  | setBondable (bondable : Bool)
  | sessionStart
deriving DecidableEq, Repr

/-- Environment outcome of one `advertise(..)` call: a connection was
accepted (carrying the connection events its session's GATT pump processes
before the session race is decided), or the advertise path failed. -/
inductive AdvStep
  | connected (sessionEvents : List ConnEvent)
  | advError
deriving DecidableEq, Repr

/-- Result of one iteration of the advertising loop body: continue the loop
with the updated bond slot (the body has no break or return), or panic on an
advertise error. -/
inductive BodyResult
  | continueLoop (newBond : Option BondInformation) (actions : List LoopAction)
  | panicked (actions : List LoopAction)
deriving DecidableEq, Repr

/-- The advertising loop body in `run_bluetooth`: on an accepted connection,
set the bondable flag to `bond_info.is_none()`, run the session race (the
GATT pump may update the bond slot), then fall through to the next
iteration; on an advertise error, panic. -/
def advLoopBody (bond : Option BondInformation) : AdvStep → BodyResult
  | .connected evs =>
    .continueLoop (gatt_events_task bond evs).1
      [LoopAction.advertiseStart, LoopAction.setBondable bond.isNone,
        LoopAction.sessionStart]
  | .advError => .panicked [LoopAction.advertiseStart]

/-- How a fuel-bounded run of an infinite `loop` can end. `returned` would
require a break or return in the loop body. -/
inductive RunOutcome
  | outOfFuel
  | panicked
  | returned
deriving DecidableEq, Repr

/-- Fuel-bounded run of the advertising loop of `run_bluetooth` over a list
of advertise outcomes, threading the bond slot (initially the local
`bond_info`), and collecting the action trace. An exhausted environment
models the loop suspended awaiting the next advertise outcome. -/
def advLoopRun : Nat → Option BondInformation → List AdvStep →
    RunOutcome × List LoopAction
  | 0, _, _ => (RunOutcome.outOfFuel, [])
  | _ + 1, _, [] => (RunOutcome.outOfFuel, [])
  | fuel + 1, bond, step :: rest =>
    match advLoopBody bond step with
    | .continueLoop b acts =>
      ((advLoopRun fuel b rest).1, acts ++ (advLoopRun fuel b rest).2)
    | .panicked acts => (RunOutcome.panicked, acts)

/-- `ble_task`: drive `runner.run()` forever; an `Err` from the run loop is a
panic. The environment lists each run call's success; the loop has no exit. -/
def ble_task : Nat → List Bool → RunOutcome
  | 0, _ => RunOutcome.outOfFuel
  | _ + 1, [] => RunOutcome.outOfFuel
  | fuel + 1, ok :: rest => if ok then ble_task fuel rest else RunOutcome.panicked

/-- `join(ble_task(..), advertising loop)`: the join completes (returns) only
when both sides complete; a panic aborts the program. -/
def joinOutcome : RunOutcome → RunOutcome → RunOutcome
  | RunOutcome.panicked, _ => RunOutcome.panicked
  | _, RunOutcome.panicked => RunOutcome.panicked
  | RunOutcome.returned, RunOutcome.returned => RunOutcome.returned
  | _, _ => RunOutcome.outOfFuel

/-- `run_bluetooth`: `bond_info` starts empty, then `join` of the ble_task
run loop and the advertising loop. Returns the join outcome and the
advertising loop's action trace. -/
def run_bluetooth (fuel : Nat) (bleEnv : List Bool) (advEnv : List AdvStep) :
    RunOutcome × List LoopAction :=
  (joinOutcome (ble_task fuel bleEnv) (advLoopRun fuel Option.none advEnv).1,
    (advLoopRun fuel Option.none advEnv).2)

/-- `main` sequencing: `run_bluetooth(..).await` is followed by
`spawner.spawn(knob_controller(..))`, so the decoder task is spawned exactly
when `run_bluetooth` returns. -/
def knob_controller_spawned (fuel : Nat) (bleEnv : List Bool) (advEnv : List AdvStep) : Bool :=
  (run_bluetooth fuel bleEnv advEnv).1 == RunOutcome.returned

/-- `select(a, b)` completion semantics (embassy_futures::select): given each
branch's completion time (`none` = never completes), the select completes as
soon as either branch does, at the earlier time; the other branch is
cancelled. -/
def selectDone : Option Nat → Option Nat → Option Nat
  | Option.none, Option.none => Option.none
  | some t, Option.none => some t
  | Option.none, some u => some u
  | some t, some u => some (min t u)

/- ===== advertise (src/bluetooth.rs) ===== -/

def NAME : String := "Simple Volume Knob"

/-- `name.as_bytes()`; NAME is ASCII, so the UTF-8 bytes are the code
points. -/
def nameBytes : List Nat := NAME.toList.map Char.toNat

def LE_GENERAL_DISCOVERABLE : Nat := 0x02

def BR_EDR_NOT_SUPPORTED : Nat := 0x04

/-- Bluetooth SIG 16-bit service UUID of the Human Interface Device
service (`service::HUMAN_INTERFACE_DEVICE`). -/
def HUMAN_INTERFACE_DEVICE : Nat := 0x1812

/-- Bluetooth SIG 16-bit service UUID of the Battery service
(`service::BATTERY`). -/
def BATTERY : Nat := 0x180F

def u16_to_le_bytes (u : Nat) : List Nat := [u % 256, u / 256 % 256]

/-- The advertisement data structures passed to `AdStructure::encode_slice`
in `advertise`. -/
inductive AdStructure
  | Flags (flags : Nat)
  | CompleteLocalName (name : List Nat)
  | ServiceUuids16 (uuids : List (List Nat))
deriving DecidableEq, Repr

/-- Modelled from the spec: `AdStructure::encode_slice` is host-library
code, not under src. Per the advertising wire format behind the spec's
31-byte payload limit, each AD structure encodes as one length octet, one
type octet and its payload octets. -/
def adStructureEncodedLen : AdStructure → Nat
  | .Flags _ => 3
  | .CompleteLocalName n => 2 + n.length
  | .ServiceUuids16 us => 2 + (us.map List.length).sum

/-- Modelled from the spec: encoding the structures into the buffer succeeds
with the total encoded length exactly when that total fits the buffer. -/
def encode_slice (structs : List AdStructure) (bufLen : Nat) : Option Nat :=
  if (structs.map adStructureEncodedLen).sum ≤ bufLen then
    some (structs.map adStructureEncodedLen).sum
  else Option.none

/-- The advertisement payload built by `advertise`: flags, complete local
name, and the 16-bit service UUID list with the HID and Battery services. -/
def advertiserDataStructs : List AdStructure :=
  [AdStructure.Flags (LE_GENERAL_DISCOVERABLE ||| BR_EDR_NOT_SUPPORTED),
    AdStructure.CompleteLocalName nameBytes,
    AdStructure.ServiceUuids16
      [u16_to_le_bytes HUMAN_INTERFACE_DEVICE, u16_to_le_bytes BATTERY]]

/- ===== Claim theorems: dispatcher, notifier, event pump ===== -/

/-- C1 counterexample: a Read event in an environment where the
security-level query fails is dropped by the `?` early return with zero
replies sent, not exactly one. -/
theorem gatt_read_unreplied_on_security_level_error :
    ¬ (repliesOf (handle_gatt_event ⟨Except.error BleError.disconnected, true⟩
        (GattEvent.Read 0))).length = 1 := by
  decide

/-- C1 amended: provided the security-level query succeeds and the reply
handle is constructed successfully, every Read and every Write event is
replied to exactly once — a reject carrying INSUFFICIENT_AUTHENTICATION when
the connection's level is not authenticated, an accept when it is — and the
handler returns Ok. -/
theorem handle_gatt_event_replies_exactly_once (env : GattEnv) (sl : SecurityLevel)
    (h : Nat) (d : List Nat)
    (hsl : env.security_level = Except.ok sl) (hr : env.replyOk = true) :
    handle_gatt_event env (GattEvent.Read h) =
      Except.ok [if sl.authenticated then Reply.accept
                 else Reply.reject AttErrorCode.INSUFFICIENT_AUTHENTICATION] ∧
    handle_gatt_event env (GattEvent.Write h d) =
      Except.ok [if sl.authenticated then Reply.accept
                 else Reply.reject AttErrorCode.INSUFFICIENT_AUTHENTICATION] := by
  constructor <;>
    (simp only [handle_gatt_event, hsl, hr]
     cases hb : sl.authenticated <;> simp)

/-- C1 witness: in a concrete unauthenticated environment the Read and the
Write are each answered by exactly the insufficient-authentication reject. -/
theorem handle_gatt_event_replies_exactly_once_witness :
    handle_gatt_event ⟨Except.ok ⟨false⟩, true⟩ (GattEvent.Read 3) =
      Except.ok [Reply.reject AttErrorCode.INSUFFICIENT_AUTHENTICATION] ∧
    handle_gatt_event ⟨Except.ok ⟨false⟩, true⟩ (GattEvent.Write 3 [7]) =
      Except.ok [Reply.reject AttErrorCode.INSUFFICIENT_AUTHENTICATION] :=
  handle_gatt_event_replies_exactly_once ⟨Except.ok ⟨false⟩, true⟩ ⟨false⟩ 3 [7] rfl rfl

/-- C5: with a live link both notifies succeed and send performs exactly the
key's 2-byte report, the 50 ms delay, then None's 2-byte report, returning
Ok; when the first notify fails send returns the error having performed
nothing further, when the second fails it returns that error, and in either
case the notifier task breaks out of its loop, performing no further
notification. -/
theorem send_key_press_release_contract (k : KeyPressed) (e : BleError)
    (r2 : Option BleError) (fuel : Nat) (toggle : Bool)
    (rest : List (Option BleError × Option BleError)) :
    KeyPressed.send k Option.none Option.none =
      ([NotifyAction.notify k.as_report, NotifyAction.delayMs 50,
        NotifyAction.notify KeyPressed.None.as_report], Option.none) ∧
    k.as_report.length = 2 ∧
    KeyPressed.send k (some e) r2 = ([NotifyAction.notify k.as_report], some e) ∧
    custom_task (fuel + 1) toggle ((some e, r2) :: rest) =
      ([NotifyAction.notify
          (if toggle then KeyPressed.VolUp else KeyPressed.VolDown).as_report], true) ∧
    custom_task (fuel + 1) toggle ((Option.none, some e) :: rest) =
      ([NotifyAction.notify
          (if toggle then KeyPressed.VolUp else KeyPressed.VolDown).as_report,
        NotifyAction.delayMs 50, NotifyAction.notify KeyPressed.None.as_report],
        true) := by
  refine ⟨rfl, ?_, rfl, rfl, rfl⟩
  cases k <;> rfl

/-- C7 counterexample: a failing pass_key_confirm call terminates the pump
with its error through the `?`, though no Disconnected event was
delivered. -/
theorem gatt_events_task_terminates_without_disconnect :
    (gatt_events_task Option.none
        [ConnEvent.PassKeyConfirm (some BleError.disconnected)]).2 =
      some (Except.error BleError.disconnected) ∧
    firstDisconnect [ConnEvent.PassKeyConfirm (some BleError.disconnected)] =
      Option.none := by
  decide

/-- C7 amended: provided the fallible host calls made while handling events
succeed (pass-key confirmation, the security-level query during GATT
handling), the pump terminates exactly when a Disconnected event is
delivered, returning Ok with that first event's reason, and on every other
event stays in its loop and polls the next one. -/
theorem gatt_events_task_terminates_iff_disconnected (evs : List ConnEvent)
    (bond : Option BondInformation) (hok : ∀ e ∈ evs, hostCallOk e = true) :
    (gatt_events_task bond evs).2 = (firstDisconnect evs).map Except.ok := by
  induction evs generalizing bond with
  | nil => rfl
  | cons e rest ih =>
    have he := hok e (List.mem_cons_self _ _)
    have hrest : ∀ x ∈ rest, hostCallOk x = true :=
      fun x hx => hok x (List.mem_cons_of_mem _ hx)
    cases e with
    | Disconnected r => rfl
    | PassKeyDisplay k => exact ih bond hrest
    | PassKeyConfirm res =>
      cases res with
      | none => exact ih bond hrest
      | some e2 => simp [hostCallOk] at he
    | PassKeyInput => exact ih bond hrest
    | PairingComplete sl b => exact ih b hrest
    | PairingFailed err => exact ih bond hrest
    | OtherEvent => exact ih bond hrest
    | Gatt env ev =>
      cases hsl : env.security_level with
      | error e2 => simp [hostCallOk, hsl] at he
      | ok sl =>
        have hhge : ∃ l, handle_gatt_event env ev = Except.ok l := by
          cases ev <;> simp [handle_gatt_event, hsl]
        obtain ⟨l, hl⟩ := hhge
        have hstep : gatt_events_step bond (ConnEvent.Gatt env ev) =
            (bond, Option.none) := by
          simp [gatt_events_step, hl]
        have htask : gatt_events_task bond (ConnEvent.Gatt env ev :: rest) =
            gatt_events_task bond rest := by
          simp [gatt_events_task, hstep]
        rw [htask]
        exact ih bond hrest

/-- C7 witness: a pump fed displays, a pairing failure, an unknown event and
then a disconnect terminates with exactly that disconnect's reason. -/
theorem gatt_events_task_terminates_iff_disconnected_witness :
    (gatt_events_task Option.none
        [ConnEvent.PassKeyDisplay 5, ConnEvent.PairingFailed 2, ConnEvent.OtherEvent,
          ConnEvent.Disconnected 19, ConnEvent.PassKeyInput]).2 =
      some (Except.ok 19) := by
  have h := gatt_events_task_terminates_iff_disconnected
    [ConnEvent.PassKeyDisplay 5, ConnEvent.PairingFailed 2, ConnEvent.OtherEvent,
      ConnEvent.Disconnected 19, ConnEvent.PassKeyInput] Option.none (by decide)
  rw [h]
  rfl

/-- C10: the pairing-complete transition writes the event's bond field into
the process-wide bond slot verbatim and stays in the loop; in particular an
absent bond erases a previously stored one, and the next accepted connection
is then marked bondable (set_bondable true) again. -/
theorem pairing_complete_overwrites_bond (bond b : Option BondInformation)
    (sl : Nat) (evs : List ConnEvent) (fuel : Nat)
    (evs2 : List ConnEvent) (rest : List AdvStep) :
    gatt_events_step bond (ConnEvent.PairingComplete sl b) = (b, Option.none) ∧
    gatt_events_task bond (ConnEvent.PairingComplete sl b :: evs) =
      gatt_events_task b evs ∧
    (advLoopRun (fuel + 2) bond
        (AdvStep.connected [ConnEvent.PairingComplete sl Option.none] ::
          AdvStep.connected evs2 :: rest)).2.take 5 =
      [LoopAction.advertiseStart, LoopAction.setBondable bond.isNone,
        LoopAction.sessionStart, LoopAction.advertiseStart,
        LoopAction.setBondable true] :=
  ⟨rfl, rfl, rfl⟩

/- ===== Claim theorems: lifecycle ===== -/

theorem advLoopRun_never_returns (fuel : Nat) :
    ∀ (bond : Option BondInformation) (env : List AdvStep),
    (advLoopRun fuel bond env).1 ≠ RunOutcome.returned := by
  induction fuel with
  | zero => intro bond env; simp [advLoopRun]
  | succ n ih =>
    intro bond env
    cases env with
    | nil => simp [advLoopRun]
    | cons s rest =>
      cases s with
      | connected evs =>
        simp only [advLoopRun, advLoopBody]
        exact ih _ _
      | advError => simp [advLoopRun, advLoopBody]

theorem ble_task_never_returns (fuel : Nat) :
    ∀ env : List Bool, ble_task fuel env ≠ RunOutcome.returned := by
  induction fuel with
  | zero => intro env; simp [ble_task]
  | succ n ih =>
    intro env
    cases env with
    | nil => simp [ble_task]
    | cons ok rest =>
      cases ok with
      | false => simp [ble_task]
      | true => simpa [ble_task] using ih rest

theorem joinOutcome_returned (a b : RunOutcome)
    (h : joinOutcome a b = RunOutcome.returned) :
    a = RunOutcome.returned ∧ b = RunOutcome.returned := by
  cases a <;> cases b <;> simp_all [joinOutcome]

/-- C3: run_bluetooth never returns — the join of the ble_task run loop with
the advertise/session loop has no returning path under any environment and
any fuel — so the knob_controller spawn that main sequences after awaiting
run_bluetooth never executes: the decoder task is unreachable. -/
theorem knob_controller_task_unreachable (fuel : Nat) (bleEnv : List Bool)
    (advEnv : List AdvStep) :
    (run_bluetooth fuel bleEnv advEnv).1 ≠ RunOutcome.returned ∧
    knob_controller_spawned fuel bleEnv advEnv = false := by
  have hnr : (run_bluetooth fuel bleEnv advEnv).1 ≠ RunOutcome.returned := by
    intro hc
    obtain ⟨hb, ha⟩ := joinOutcome_returned _ _ hc
    exact advLoopRun_never_returns fuel Option.none advEnv ha
  refine ⟨hnr, ?_⟩
  simpa [knob_controller_spawned, beq_eq_false_iff_ne] using hnr

/-- C3 witness: the theorem at a concrete fuel and environment. -/
theorem knob_controller_task_unreachable_witness :
    (run_bluetooth 3 [true] [AdvStep.advError]).1 ≠ RunOutcome.returned ∧
    knob_controller_spawned 3 [true] [AdvStep.advError] = false :=
  knob_controller_task_unreachable 3 [true] [AdvStep.advError]

/-- C4: for every accepted connection, the loop sets the bondable flag —
after the advertise call and immediately before the session race — to
exactly `bond_info.is_none()`: true iff no bond is stored in the
process-wide slot at that moment, false if one is; and the slot handed to
the next iteration is the one the session's event pump left behind. -/
theorem set_bondable_iff_no_bond (fuel : Nat) (bond : Option BondInformation)
    (evs : List ConnEvent) (rest : List AdvStep) :
    advLoopRun (fuel + 1) bond (AdvStep.connected evs :: rest) =
      ((advLoopRun fuel (gatt_events_task bond evs).1 rest).1,
        LoopAction.advertiseStart :: LoopAction.setBondable bond.isNone ::
          LoopAction.sessionStart ::
          (advLoopRun fuel (gatt_events_task bond evs).1 rest).2) ∧
    (bond.isNone = true ↔ bond = Option.none) := by
  refine ⟨rfl, ?_⟩
  cases bond <;> simp

/-- C4 witness: with an empty slot the connection is marked bondable; with a
stored bond it is not. -/
theorem set_bondable_iff_no_bond_witness :
    (advLoopRun 1 Option.none [AdvStep.connected []]).2 =
      [LoopAction.advertiseStart, LoopAction.setBondable true,
        LoopAction.sessionStart] ∧
    (advLoopRun 1 (some ⟨7⟩) [AdvStep.connected []]).2 =
      [LoopAction.advertiseStart, LoopAction.setBondable false,
        LoopAction.sessionStart] := by
  have h1 := (set_bondable_iff_no_bond 0 Option.none [] []).1
  have h2 := (set_bondable_iff_no_bond 0 (some ⟨7⟩) [] []).1
  constructor
  · rw [h1]
    rfl
  · rw [h2]
    rfl

/-- C8: the session race of the event pump against the notifier completes
exactly when either task completes — at the earlier completion when both
would, the loser being cancelled — and afterwards, whatever the session's
events were and however it ended, the loop's next action is unconditionally
a fresh advertise call, with no reset action in between. -/
theorem session_race_and_readvertise (a b : Option Nat) (t u fuel : Nat)
    (bond : Option BondInformation) (evs evs2 : List ConnEvent)
    (rest : List AdvStep) :
    (selectDone a b = Option.none ↔ (a = Option.none ∧ b = Option.none)) ∧
    selectDone (some t) b ≠ Option.none ∧
    selectDone a (some u) ≠ Option.none ∧
    selectDone (some t) (some u) = some (min t u) ∧
    (advLoopRun (fuel + 2) bond
        (AdvStep.connected evs :: AdvStep.connected evs2 :: rest)).2.take 4 =
      [LoopAction.advertiseStart, LoopAction.setBondable bond.isNone,
        LoopAction.sessionStart, LoopAction.advertiseStart] := by
  refine ⟨?_, ?_, ?_, rfl, rfl⟩
  · cases a <;> cases b <;> simp [selectDone]
  · cases b <;> simp [selectDone]
  · cases a <;> simp [selectDone]

/-- C8 witness: the theorem at concrete completion times and a concrete
disconnecting session. -/
theorem session_race_and_readvertise_witness :
    (selectDone Option.none Option.none = Option.none ↔
      (Option.none = (Option.none : Option Nat) ∧
        Option.none = (Option.none : Option Nat))) ∧
    selectDone (some 3) Option.none ≠ Option.none ∧
    selectDone Option.none (some 5) ≠ Option.none ∧
    selectDone (some 3) (some 5) = some (min 3 5) ∧
    (advLoopRun 2 Option.none
        (AdvStep.connected [ConnEvent.Disconnected 19] ::
          AdvStep.connected [] :: [])).2.take 4 =
      [LoopAction.advertiseStart, LoopAction.setBondable true,
        LoopAction.sessionStart, LoopAction.advertiseStart] :=
  session_race_and_readvertise Option.none Option.none 3 5 0 Option.none
    [ConnEvent.Disconnected 19] [] []

/-- C9: the advertisement payload built by advertise is exactly three AD
structures — flags (general-discoverable, BR/EDR-not-supported), the
complete local name "Simple Volume Knob", and the 16-bit service UUID list
with the HID and Battery service UUIDs — whose encoded size of 29 octets
fits the 31-octet advertising buffer, so encoding succeeds. -/
theorem advertise_payload_fits :
    NAME = "Simple Volume Knob" ∧
    advertiserDataStructs.length = 3 ∧
    (advertiserDataStructs.map adStructureEncodedLen).sum = 29 ∧
    encode_slice advertiserDataStructs 31 = some 29 := by
  refine ⟨rfl, rfl, ?_, ?_⟩ <;> decide

end SVK
